import Mathlib

/-
  Verification development for the Cypress snowboard-next update script
  (scripts/update.mjs): a shallow embedding in Lean 4 of its decision
  engine (decideNext), seasonal fallback (seasonalGuess), snapshot parser
  (parseLiftStatus), forecast aggregator (fetchForecast's pure core) and
  bulletin blurb truncation (from fetchBCSnowpack), together with theorems
  about them.

  Embedding conventions:
  - JavaScript numbers are modelled as exact rationals (ℚ); the script
    only adds, divides and compares quantities far from the binary
    rounding granularity, so exact rational arithmetic is the intended
    idealisation.  Integer-valued extractions (regex digit groups,
    snow depths, lift counts, percentages) are modelled as ℤ.
  - `null`/`undefined` is modelled by `Option`; a JS object that may be
    `null` or error-shaped (only an `error` field) becomes `Option` of a
    structure whose extractable fields are all `Option` (an error-shaped
    object behaves exactly like a record of absent fields under `?.`).
  - The JS object used as a string-keyed map (`excludeBefore3pmRain`)
    is modelled as an association list with first-match lookup; the
    script only ever stores distinct keys (one per forecast date).
  - The hidden input `new Date()` (only its month is consumed, by
    `seasonalGuess`) is hoisted into an explicit `month` parameter
    (0 = January, as returned by JS `getMonth()`).
  - `toLocaleDateString` (used only to produce the human label of a
    forecast day after day 0) is an external locale facility; it is
    modelled as an explicit function parameter `locale : String → String`
    taking the ISO date of the day.
-/

namespace CypressNext

/-- The `good`/`meh`/`bad` enumeration used both for recommendation
confidence and per-day stoke ratings. -/
inductive Confidence where
  | good
  | meh
  | bad
deriving DecidableEq, Repr

/-- Result of `parseLiftStatus`.  The JS field `open` is renamed
`openCount` (`open` is a Lean keyword). -/
structure LiftStatus where
  openCount : Option ℤ
  total : Option ℤ
  closed : Option ℤ
deriving DecidableEq, Repr

/-- Result of `parseSnow` (the decision engine only reads
`snow7DaysCm` and `baseDepthCm`). -/
structure SnowReport where
  snowOvernightCm : Option ℤ
  snow24HoursCm : Option ℤ
  snow48HoursCm : Option ℤ
  snow7DaysCm : Option ℤ
  seasonTotalCm : Option ℤ
  baseDepthCm : Option ℤ
deriving DecidableEq, Repr

/-- One emitted forecast day (element of `forecast.days`). -/
structure ForecastDay where
  date : String
  label : String
  rainMm : ℚ
  snowfallCm : ℚ
  rainBefore3pm : Bool
  stoke : Confidence
deriving DecidableEq, Repr

/-- The forecast object consumed by `decideNext`:
`{days, excludeBefore3pmRain}` (the `raw` field carries no data used by
the engine and is omitted). -/
structure Forecast where
  days : List ForecastDay
  excludeBefore3pmRain : List (String × Bool)
deriving DecidableEq, Repr

/-- Result of `fetchBCSnowpack` (fields the engine reads). -/
structure BCSnowpack where
  updatedOn : Option String
  provincialPctMedian : Option ℤ
  vancouverIslandPctMedian : Option ℤ
  blurb : Option String
deriving DecidableEq, Repr

/-- The single output artifact of the engine. -/
structure Recommendation where
  label : String
  confidence : Confidence
  reasons : List String
deriving DecidableEq, Repr

/-! ### String scanning utilities

`parseLiftStatus` uses lazy regexes of the shape
`ANCHOR[\s\S]*?SUBPATTERN`.  By leftmost-match semantics this is: find
the first occurrence of the literal `ANCHOR`, then the first occurrence
of `SUBPATTERN` at or after its end.  We implement that directly on
`List Char`. -/

/-- Suffix of `s` after the first occurrence of the literal `pat`
(`none` when `pat` does not occur). -/
def afterFirst (pat : List Char) : List Char → Option (List Char)
  | [] => if pat.isEmpty then some [] else none
  | a :: t =>
    if pat.isPrefixOf (a :: t) then some ((a :: t).drop pat.length)
    else afterFirst pat t

/-- Returns `some rest` when `pat` is a literal prefix of `s`, with `rest` what
follows it. -/
def dropLit? (pat s : List Char) : Option (List Char) :=
  if pat.isPrefixOf s then some (s.drop pat.length) else none

/-- Numeric value of a digit string (the regex groups are `\d+`, so the
digits are plain ASCII). -/
def digitsToNat (l : List Char) : ℕ :=
  l.foldl (fun n c => 10 * n + (c.toNat - 48)) 0

/-- Scan `s` left to right for the first position where `f` yields a
value (models the regex engine advancing its start position). -/
def scanFor (f : List Char → Option ℕ) : List Char → Option ℕ
  | [] => f []
  | a :: t =>
    match f (a :: t) with
    | some n => some n
    | none => scanFor f t

/-- Whether `sub` occurs as a contiguous substring of `s`. -/
def strHasSub (s pat : List Char) : Bool :=
  match s with
  | [] => pat.isEmpty
  | _ :: t => pat.isPrefixOf s || strHasSub t pat

/-- String-level wrapper for `strHasSub`. -/
def strContains (s sub : String) : Bool :=
  strHasSub s.data sub.data

/-! ### Snapshot parser (`parseLiftStatus`) -/

/-- Try the subpattern `\n- text: "(\d+)"` at the head of `s`: the
literal, at least one digit, then a closing quote. -/
def tryTextNum (s : List Char) : Option ℕ :=
  match dropLit? ("\n- text: \"".data) s with
  | none => none
  | some rest =>
    let ds := rest.takeWhile Char.isDigit
    if ds.isEmpty then none
    else if (rest.drop ds.length).head? = some '"' then some (digitsToNat ds)
    else none

/-- Try the subpattern `\n- paragraph: of (\d+)` at the head of `s`. -/
def tryParagraphOf (s : List Char) : Option ℕ :=
  match dropLit? ("\n- paragraph: of ".data) s with
  | none => none
  | some rest =>
    let ds := rest.takeWhile Char.isDigit
    if ds.isEmpty then none else some (digitsToNat ds)

/-- Try the subpattern `\n- paragraph: (\d+) of (\d+)` at the head of
`s`, returning the first group. -/
def tryParagraphNofM (s : List Char) : Option ℕ :=
  match dropLit? ("\n- paragraph: ".data) s with
  | none => none
  | some rest =>
    let ds := rest.takeWhile Char.isDigit
    if ds.isEmpty then none
    else
      match dropLit? (" of ".data) (rest.drop ds.length) with
      | none => none
      | some rest2 =>
        let ds2 := rest2.takeWhile Char.isDigit
        if ds2.isEmpty then none else some (digitsToNat ds)

/-- Embeds `parseLiftStatus` from scripts/update.mjs: anchor on the
`Lifts Open` / `Lifts Closed` headings, then extract the nearest
following numeric token; every extraction fails soft to `none`. -/
def parseLiftStatus (snapshotText : String) : LiftStatus :=
  let s := snapshotText.data
  let openN :=
    (afterFirst ("heading \"Lifts Open\"".data) s).bind (scanFor tryTextNum)
  let totalN :=
    (afterFirst ("heading \"Lifts Open\"".data) s).bind (scanFor tryParagraphOf)
  let closedN :=
    (afterFirst ("heading \"Lifts Closed\"".data) s).bind (scanFor tryParagraphNofM)
  { openCount := openN.map Int.ofNat
    total := totalN.map Int.ofNat
    closed := closedN.map Int.ofNat }

/-! ### Bulletin blurb (`fetchBCSnowpack`) -/

/-- The blurb construction of `fetchBCSnowpack`, given the (trimmed)
narrative excerpt captured by its regex, `none` when the regex did not
match: `s ? s.slice(0, 260) + (s.length > 260 ? '…' : '') : null`.
Note the empty excerpt is falsy in JS and also yields `null`. -/
def bcBlurb (excerpt : Option String) : Option String :=
  match excerpt with
  | none => none
  | some s =>
    if s = ("") then none
    else some (String.mk (s.data.take 260) ++ (if 260 < s.data.length then ("…") else ("")))

/-! ### Seasonal fallback (`seasonalGuess`) -/

/-- The snowpack bias accumulated by `seasonalGuess`:
`vanIsle >= 110 → +1`, `vanIsle <= 85 → −1`, `prov >= 115 → +1`,
`prov <= 95 → −1` (each clause only when the figure is present). -/
def seasonalBias (prov vanIsle : Option ℤ) : ℤ :=
  (match vanIsle with
   | some v => (if v ≥ 110 then 1 else 0) + (if v ≤ 85 then -1 else 0)
   | none => 0) +
  (match prov with
   | some p => (if p ≥ 115 then 1 else 0) + (if p ≤ 95 then -1 else 0)
   | none => 0)

/-- Embeds `seasonalGuess` from scripts/update.mjs, with the hidden
`new Date().getMonth()` hoisted into the explicit `month` parameter
(0 = January). -/
def seasonalGuess (month : ℕ) (bcSnowpack : Option BCSnowpack) : Recommendation :=
  let prov := bcSnowpack.bind BCSnowpack.provincialPctMedian
  let vanIsle := bcSnowpack.bind BCSnowpack.vancouverIslandPctMedian
  let updatedStr :=
    match bcSnowpack.bind BCSnowpack.updatedOn with
    | some u => u
    | none => "unknown date"
  let biasNotes :=
    (match vanIsle with
     | some v =>
       ["BC ASWS Vancouver Island avg: " ++ toString v ++ "% of median (" ++
         updatedStr ++ ")."]
     | none => []) ++
    (match prov with
     | some p =>
       ["BC ASWS provincial avg: " ++ toString p ++ "% of median (" ++
         updatedStr ++ ")."]
     | none => [])
  let bias := seasonalBias prov vanIsle
  if 4 ≤ month ∧ month ≤ 9 then
    let target :=
      if bias > 0 then "late Nov (maybe early)"
      else if bias < 0 then "mid/late Dec"
      else "late Nov / Dec"
    { label := "Next season (aim for " ++ target ++ ") — check again in fall"
      confidence := .bad
      reasons :=
        ["Out of typical Cypress snow season (May–Oct).",
         "Historical pattern: first reliably rideable windows tend to show up late Nov–Dec."]
        ++ biasNotes }
  else if month = 10 then
    let target :=
      if bias > 0 then "mid/late Nov"
      else if bias < 0 then "early/mid Dec"
      else "late Nov / early Dec"
    { label := "Likely " ++ target ++ " (watch for first storms)"
      confidence := .meh
      reasons :=
        ["Early season: openings depend on first significant snow + sustained cold."]
        ++ biasNotes }
  else if month ≤ 1 then
    { label := "This week / next week (prime season) — watch for fresh snow + cold nights"
      confidence := .meh
      reasons :=
        ["Jan/Feb is historically the most reliable window for Cypress."]
        ++ biasNotes }
  else
    { label := "Next 1–2 weeks (spring variable) — prioritize cold nights + fresh snow"
      confidence := .meh
      reasons :=
        ["Spring conditions are volatile; base can be fine but rain/warmth ruins it fast."]
        ++ biasNotes }

/-! ### Decision engine (`decideNext`) -/

/-- First-match lookup in the association list modelling the JS object
`excludeBefore3pmRain` (`none` models an absent key / `undefined`). -/
def lookupExclude (m : List (String × Bool)) (k : String) : Option Bool :=
  (m.find? (fun p => p.1 == k)).map Prod.snd

/-- Models `forecast?.days ?? []`. -/
def forecastDays : Option Forecast → List ForecastDay
  | some f => f.days
  | none => []

/-- Models `forecast?.excludeBefore3pmRain` (empty when absent). -/
def excludeMapOf : Option Forecast → List (String × Bool)
  | some f => f.excludeBefore3pmRain
  | none => []

/-- Models `lifts.open / lifts.total >= 0.67` with JS division semantics at a
zero denominator: `o/0` is `Infinity` for `o > 0` (the comparison is
true), `NaN` or `-Infinity` otherwise (false). -/
def jsRatioGe67 (o t : ℤ) : Bool :=
  if t = 0 then decide (0 < o) else decide ((67 : ℚ)/100 ≤ (o : ℚ)/(t : ℚ))

/-- Computes `liftOk` of `decideNext`. -/
def decideLiftOk (lifts : Option LiftStatus) : Bool :=
  match lifts.bind LiftStatus.openCount, lifts.bind LiftStatus.total with
  | some o, some t => jsRatioGe67 o t
  | _, _ => false

/-- Computes `snowOk` of `decideNext`. -/
def decideSnowOk (snow : Option SnowReport) : Bool :=
  match snow.bind SnowReport.snow7DaysCm with
  | some v => decide (10 ≤ v)
  | none => false

/-- Computes `baseOk` of `decideNext`. -/
def decideBaseOk (snow : Option SnowReport) : Bool :=
  match snow.bind SnowReport.baseDepthCm with
  | some v => decide (80 ≤ v)
  | none => false

/-- Computes `todayExcluded` of `decideNext`: look up day 0's date in the
exclusion map; an absent forecast, an absent day 0 or an empty date key
(falsy in JS) mean "not excluded". -/
def decideTodayExcluded (forecast : Option Forecast) : Bool :=
  match ((forecastDays forecast).head?).map ForecastDay.date with
  | some k =>
    if k = ("") then false
    else lookupExclude (excludeMapOf forecast) k == some true
  | none => false

/-- The rain-before-3pm flag of forecast day 0 (`false` when the
forecast is absent or empty). -/
def day0RainFlag (forecast : Option Forecast) : Bool :=
  (((forecastDays forecast).head?).map ForecastDay.rainBefore3pm).getD false

/-- The reasons accumulated by `decideNext` before it branches. -/
def decideBaseReasons (lifts : Option LiftStatus) (snow : Option SnowReport)
    (forecast : Option Forecast) : List String :=
  (match lifts.bind LiftStatus.openCount, lifts.bind LiftStatus.total with
   | some o, some t =>
     ["Cypress lift status: " ++ toString o ++ "/" ++ toString t ++ " open."]
   | _, _ => []) ++
  (match snow.bind SnowReport.snow7DaysCm with
   | some v => ["Snow (7 days): " ++ toString v ++ " cm."]
   | none => []) ++
  (match snow.bind SnowReport.baseDepthCm with
   | some v => ["Base depth: " ++ toString v ++ " cm."]
   | none => []) ++
  (if decideTodayExcluded forecast then
    ["Excluded today: forecast shows rain before 3pm."]
   else [])

/-- Guard of the "today is rideable" branch:
`!todayExcluded && liftOk && (snowOk || baseOk)`. -/
def todayGoodGuard (lifts : Option LiftStatus) (snow : Option SnowReport)
    (forecast : Option Forecast) : Bool :=
  !decideTodayExcluded forecast && decideLiftOk lifts &&
    (decideSnowOk snow || decideBaseOk snow)

/-- Models `days.find((d, idx) => idx > 0 && !excludeMap[d.date])`: the first
forecast day after day 0 whose date is not mapped to `true` (an absent
key is falsy, hence also acceptable). -/
def nextDayOf (forecast : Option Forecast) : Option ForecastDay :=
  ((forecastDays forecast).drop 1).find?
    (fun d => !(lookupExclude (excludeMapOf forecast) d.date == some true))

/-- The extra reason lines appended for the chosen next day. -/
def nextDayExtra (forecast : Option Forecast) (nextDay : ForecastDay) : List String :=
  (if lookupExclude (excludeMapOf forecast) nextDay.date == some false then
    ["No forecast rain before 3pm on " ++ nextDay.date ++ "."]
   else []) ++
  (if 0 < nextDay.snowfallCm then
    ["Forecast snowfall: ~" ++ toString nextDay.snowfallCm ++ " cm (low confidence)."]
   else []) ++
  (if 0 < nextDay.rainMm then
    ["Forecast total rain: ~" ++ toString nextDay.rainMm ++ " mm (but after 3pm, per rule)."]
   else [])

/-- The reason line appended on the seasonal-fallback path. -/
def noAcceptableNote : String :=
  "Also: no acceptable (no-rain-before-3pm) day found in the next 14 days."

/-- Embeds `decideNext` from scripts/update.mjs.  `month` is the hoisted
hidden input `new Date().getMonth()` consumed by the seasonal fallback. -/
def decideNext (month : ℕ) (lifts : Option LiftStatus) (snow : Option SnowReport)
    (forecast : Option Forecast) (bcSnowpack : Option BCSnowpack) : Recommendation :=
  let reasons := decideBaseReasons lifts snow forecast
  if todayGoodGuard lifts snow forecast then
    { label := "Next good day: Today (no rain before 3pm) — go when you can"
      confidence := .good
      reasons := reasons }
  else
    match nextDayOf forecast with
    | some nextDay =>
      { label := "Next good day: " ++ nextDay.label
        confidence := .meh
        reasons := reasons ++ nextDayExtra forecast nextDay }
    | none =>
      let seasonal := seasonalGuess month bcSnowpack
      { label := seasonal.label
        confidence := seasonal.confidence
        reasons := reasons ++ seasonal.reasons ++ [noAcceptableNote] }

/-! ### Forecast aggregator (`fetchForecast`)

The pure core of `fetchForecast`: bucket the parallel hourly arrays
`hourly.time`, `hourly.rain`, `hourly.snowfall`, `hourly.temperature_2m`
by local date, then emit up to 14 labelled `ForecastDay`s and the
exclusion map. -/

/-- One hourly sample as pushed on `d.hours`:
`{t, hour, rainMm, snowfallCm, tempC}`.  `hour` is
`Number(t.slice(11, 13))`; `none` models `NaN`. -/
structure HourSample where
  t : String
  hour : Option ℕ
  rainMm : ℚ
  snowfallCm : ℚ
  tempC : ℚ
deriving DecidableEq, Repr

/-- Models `t.slice(0, 10)`: the local-date key of a sample. -/
def jsDate (t : String) : String :=
  String.mk (t.data.take 10)

/-- Models `Number` on a string of digits: the empty string is `0` in JS, a
non-digit makes it `NaN` (modelled `none`). -/
def jsDigits? (s : String) : Option ℕ :=
  if s.data.isEmpty then some 0
  else if s.data.all Char.isDigit then some (digitsToNat s.data)
  else none

/-- Models `Number(t.slice(11, 13))`: the local hour of a sample. -/
def jsHour (t : String) : Option ℕ :=
  jsDigits? (String.mk ((t.data.drop 11).take 2))

/-- Models `hour < 15` in JS; any comparison against `NaN` is false. -/
def hourLt15 (hour : Option ℕ) : Bool :=
  match hour with
  | some h => decide (h < 15)
  | none => false

/-- Models `const isRain = r > 0 && !(te <= 1 && s > 0)`: precipitation counts
as rain unless the cold-with-snowfall guard reclassifies it as snow. -/
def isRainSample (r s te : ℚ) : Bool :=
  decide (0 < r) && !(decide (te ≤ 1) && decide (0 < s))

/-- The per-date accumulator stored in the `byDate` map. -/
structure DayAcc where
  date : String
  rainMm : ℚ
  snowfallCm : ℚ
  rainBefore3pm : Bool
  hours : List HourSample
deriving DecidableEq, Repr

/-- A fresh accumulator:
`{date, rainMm: 0, snowfallCm: 0, rainBefore3pm: false, hours: []}`. -/
def freshDay (date : String) : DayAcc :=
  { date := date, rainMm := 0, snowfallCm := 0, rainBefore3pm := false, hours := [] }

/-- Fold one sample into its accumulator: add the rain and snow
amounts, latch `rainBefore3pm`, push the hour. -/
def addToDay (s : HourSample) (d : DayAcc) : DayAcc :=
  { d with
    rainMm := d.rainMm + s.rainMm
    snowfallCm := d.snowfallCm + s.snowfallCm
    rainBefore3pm :=
      d.rainBefore3pm || (hourLt15 s.hour && isRainSample s.rainMm s.snowfallCm s.tempC)
    hours := d.hours ++ [s] }

/-- Insert a sample into the date-keyed accumulator list, preserving
first-seen date order (JS `Map` insertion order). -/
def insertSample (s : HourSample) : List DayAcc → List DayAcc
  | [] => [addToDay s (freshDay (jsDate s.t))]
  | d :: rest =>
    if d.date = jsDate s.t then addToDay s d :: rest
    else d :: insertSample s rest

/-- The whole bucketing loop over the samples. -/
def bucketByDate (samples : List HourSample) : List DayAcc :=
  samples.foldl (fun acc s => insertSample s acc) []

/-- Zip the parallel hourly arrays into samples, iterating over the
indices of `time` and defaulting the other channels to `0`
(`Number(rain[i] ?? 0)` etc.). -/
def mkSamples (time : List String) (rain snowfall temp : List ℚ) : List HourSample :=
  (List.range time.length).map fun i =>
    { t := time.getD i ("")
      hour := jsHour (time.getD i (""))
      rainMm := rain.getD i 0
      snowfallCm := snowfall.getD i 0
      tempC := temp.getD i 0 }

/-- Models `Math.round(x * 10) / 10`: round to one decimal, halves toward
positive infinity. -/
def jsRound1 (x : ℚ) : ℚ :=
  ((Rat.floor (x * 10 + 1/2) : ℤ) : ℚ) / 10

/-- Emit one `ForecastDay` from an accumulator.  `locale` abstracts
`toLocaleDateString('en-CA', …)`, a pure function of the date used for
the labels of days after day 0. -/
def mkForecastDay (locale : String → String) (idx : ℕ) (d : DayAcc) : ForecastDay :=
  let rainMm := jsRound1 d.rainMm
  let snowfallCm := jsRound1 d.snowfallCm
  { date := d.date
    label := if idx = 0 then d.date ++ " (today)" else locale d.date
    rainMm := rainMm
    snowfallCm := snowfallCm
    rainBefore3pm := d.rainBefore3pm
    stoke :=
      if d.rainBefore3pm then .bad
      else if 0 < snowfallCm ∧ rainMm < 5 then .good
      else if rainMm < 2 then .good
      else .meh }

/-- Models `.map((d, idx) => …)` with an explicit index counter. -/
def labelDays (locale : String → String) (idx : ℕ) : List DayAcc → List ForecastDay
  | [] => []
  | d :: rest => mkForecastDay locale idx d :: labelDays locale (idx + 1) rest

/-- The pure core of `fetchForecast`: the emitted days (bucketed,
truncated to 14, labelled) and the exclusion map rebuilt from them. -/
def fetchForecast (locale : String → String) (time : List String)
    (rain snowfall temp : List ℚ) : Forecast :=
  let days := labelDays locale 0 ((bucketByDate (mkSamples time rain snowfall temp)).take 14)
  { days := days
    excludeBefore3pmRain := days.map fun d => (d.date, d.rainBefore3pm) }

/-- A sample triggers the rain-before-3pm latch of the day `date`:
same local date, local hour before 15, positive rain, not reclassified
as snow by the cold-with-snowfall guard. -/
def triggersRain (s : HourSample) (date : String) : Bool :=
  (jsDate s.t == date) && hourLt15 s.hour && isRainSample s.rainMm s.snowfallCm s.tempC

/-- Lookup of a date's accumulator, mirroring the JS `byDate.get`. -/
def findDay (acc : List DayAcc) (date : String) : Option DayAcc :=
  acc.find? (fun d => d.date == date)

/-- The bucketing invariant: each accumulated day's `rainBefore3pm`
flag is exactly "some processed sample triggers it", and dates with no
accumulator have no triggering processed sample. -/
def FlagOk (acc : List DayAcc) (processed : List HourSample) : Prop :=
  (∀ date d, findDay acc date = some d →
    d.rainBefore3pm = processed.any fun s => triggersRain s date) ∧
  (∀ date, findDay acc date = none →
    (processed.any fun s => triggersRain s date) = false)

/-- Boolean form of the invariant that the exclusion map of a forecast
agrees with the per-day `rainBefore3pm` flags (as holds for forecasts
built by `fetchForecast`, which derives the map from the days). -/
def consistentExcludeB : Option Forecast → Bool
  | none => true
  | some f =>
    f.days.all fun d =>
      lookupExclude f.excludeBefore3pmRain d.date == some d.rainBefore3pm

/-! ### Concrete fixtures used by witnesses and counterexamples -/

/-- A rainy today (rain before 3pm). -/
def exDay0Rain : ForecastDay :=
  { date := "2026-02-04", label := "2026-02-04 (today)", rainMm := 3,
    snowfallCm := 0, rainBefore3pm := true, stoke := .bad }

/-- A dry today. -/
def exDay0Dry : ForecastDay :=
  { date := "2026-02-04", label := "2026-02-04 (today)", rainMm := 0,
    snowfallCm := 0, rainBefore3pm := false, stoke := .good }

/-- A dry tomorrow with a locale-formatted label, as `fetchForecast`
produces for days after day 0. -/
def exDay1Dry : ForecastDay :=
  { date := "2026-02-05", label := "Thu, Feb 5", rainMm := 0,
    snowfallCm := 0, rainBefore3pm := false, stoke := .good }

/-- A rainy tomorrow. -/
def exDay1Rain : ForecastDay :=
  { date := "2026-02-05", label := "Thu, Feb 5", rainMm := 4,
    snowfallCm := 0, rainBefore3pm := true, stoke := .bad }

/-- Rain today, dry tomorrow. -/
def exForecastRainToday : Forecast :=
  { days := [exDay0Rain, exDay1Dry]
    excludeBefore3pmRain := [("2026-02-04", true), ("2026-02-05", false)] }

/-- Dry today, rain tomorrow. -/
def exForecastDryToday : Forecast :=
  { days := [exDay0Dry, exDay1Rain]
    excludeBefore3pmRain := [("2026-02-04", false), ("2026-02-05", true)] }

/-- Rain on every forecast day. -/
def exForecastAllRain : Forecast :=
  { days := [exDay0Rain, exDay1Rain]
    excludeBefore3pmRain := [("2026-02-04", true), ("2026-02-05", true)] }

/-- All six lifts open. -/
def exLiftsFull : LiftStatus :=
  { openCount := some 6, total := some 6, closed := none }

/-- 15 cm of 7-day snow on a 150 cm base. -/
def exSnowGood : SnowReport :=
  { snowOvernightCm := none, snow24HoursCm := none, snow48HoursCm := none,
    snow7DaysCm := some 15, seasonTotalCm := none, baseDepthCm := some 150 }

/-- The day emitted by the aggregator for the single hourly sample
2026-02-05 08:00 with rain 2 mm, snowfall 3 cm, temperature 0.5 °C:
the guard reclassifies the precipitation as snow, so
`rainBefore3pm = false` and the stoke is `good`. -/
def exAggregatedDay : ForecastDay :=
  { date := "2026-02-05", label := "2026-02-05 (today)", rainMm := 2,
    snowfallCm := 3, rainBefore3pm := false, stoke := .good }

/-! ### C7 — seasonal bias -/

/-- C7 (counterexample): the claim says the bias lies in
{-1, 0, +1, +2}; but with Vancouver Island at 80% and the provincial
average at 90% both down-bias clauses fire and the bias is −2. -/
theorem seasonalBias_counterexample :
    seasonalBias (some 90) (some 80) = -2 ∧
    ¬ ((-2 : ℤ) = -1 ∨ (-2 : ℤ) = 0 ∨ (-2 : ℤ) = 1 ∨ (-2 : ℤ) = 2) := by
  decide

/-- C7 (amended): the bias is an integer in {-2, -1, 0, +1, +2},
computed from the fixed thresholds (regional ≥ 110 adds +1, ≤ 85 adds
−1; provincial ≥ 115 adds +1, ≤ 95 adds −1), and it alters the
recommended target window only in the off-season (May–Oct) and
pre-season (Nov) branches: in every other month the label and the
confidence do not depend on the snowpack input at all. -/
theorem seasonalBias_range_offseason_only (prov vanIsle : Option ℤ) (month : ℕ)
    (bc bc2 : Option BCSnowpack) (h : month ≤ 3 ∨ month = 11) :
    (-2 ≤ seasonalBias prov vanIsle ∧ seasonalBias prov vanIsle ≤ 2) ∧
    (seasonalGuess month bc).label = (seasonalGuess month bc2).label ∧
    (seasonalGuess month bc).confidence = (seasonalGuess month bc2).confidence := by
  refine ⟨?_, ?_⟩
  · unfold seasonalBias
    rcases vanIsle with _ | v <;> rcases prov with _ | p <;>
      simp only [] <;> (try split_ifs) <;> omega
  · rcases h with h | h
    · interval_cases month <;> exact ⟨rfl, rfl⟩
    · subst h; exact ⟨rfl, rfl⟩

/-- C7 (witness): the amended theorem applied at the −2 input in
January. -/
theorem seasonalBias_range_offseason_only_witness :
    (-2 ≤ seasonalBias (some 90) (some 80) ∧ seasonalBias (some 90) (some 80) ≤ 2) ∧
    (seasonalGuess 0 none).label = (seasonalGuess 0 (some
      { updatedOn := none, provincialPctMedian := some 90,
        vancouverIslandPctMedian := some 80, blurb := none })).label ∧
    (seasonalGuess 0 none).confidence = (seasonalGuess 0 (some
      { updatedOn := none, provincialPctMedian := some 90,
        vancouverIslandPctMedian := some 80, blurb := none })).confidence :=
  seasonalBias_range_offseason_only (some 90) (some 80) 0 none
    (some { updatedOn := none, provincialPctMedian := some 90,
            vancouverIslandPctMedian := some 80, blurb := none })
    (Or.inl (by decide))

/-! ### C8 — blurb truncation -/

set_option maxRecDepth 8000 in
/-- C8 (counterexample): the claim bounds the blurb by 260 characters;
but a 261-character excerpt is cut to 260 characters and then the
ellipsis is appended, giving 261. -/
theorem blurb_261_counterexample :
    (bcBlurb (some (String.mk (List.replicate 261 'a')))).map String.length = some 261 ∧
    ¬ (261 ≤ 260) := by
  decide

/-- C8 (amended): the blurb is the excerpt itself (length ≤ 260) when
the excerpt fits, and the 260-character cut plus a one-character
ellipsis (length 261) when the excerpt is longer; when no excerpt was
found — or the excerpt is the empty string, falsy in JS — the blurb is
null. -/
theorem blurb_bounded (s : String) :
    bcBlurb none = none ∧
    (bcBlurb (some s)).map String.length =
      (if s = ("") then none else some (if s.length ≤ 260 then s.length else 261)) := by
  refine ⟨rfl, ?_⟩
  have hb : bcBlurb (some s) =
      if s = ("") then none
      else some (String.mk (s.data.take 260) ++
        (if 260 < s.data.length then ("…") else (""))) := rfl
  rw [hb]
  by_cases h : s = ("")
  · simp [h]
  · rw [if_neg h, if_neg h]
    have hlen : (String.mk (s.data.take 260) ++
        (if 260 < s.data.length then ("…") else (""))).length
        = (s.data.take 260).length + (if 260 < s.data.length then 1 else 0) := by
      by_cases hl : 260 < s.data.length
      · rw [if_pos hl, if_pos hl, String.length_append]; rfl
      · rw [if_neg hl, if_neg hl, String.length_append]; rfl
    rw [Option.map_some', hlen, List.length_take]
    have hsl : s.length = s.data.length := rfl
    rw [hsl]
    simp only [Option.some.injEq]
    split_ifs with h1 h2 <;> omega

/-! ### C9 — snapshot parser and the lift invariant -/

/-- C9 (counterexample): the parser extracts `open` and `total` by two
independent regexes and performs no cross-validation, so a snapshot
reporting 7 open of 6 total parses to `open = 7 > total = 6`, violating
the claimed invariant `open ≤ total`. -/
theorem parseLiftStatus_counterexample :
    parseLiftStatus ("heading \"Lifts Open\"\n- text: \"7\"\n- paragraph: of 6")
      = { openCount := some 7, total := some 6, closed := none } ∧
    ¬ ((7 : ℤ) ≤ 6) := by
  decide

/-- C9 (amended): every present field produced by the snapshot parser
is a nonnegative integer (the regexes capture bare digit groups), but
the parser does not enforce `open ≤ total`. -/
theorem parseLiftStatus_nonneg (text : String) :
    (∀ o, (parseLiftStatus text).openCount = some o → 0 ≤ o) ∧
    (∀ t, (parseLiftStatus text).total = some t → 0 ≤ t) ∧
    (∀ c, (parseLiftStatus text).closed = some c → 0 ≤ c) := by
  unfold parseLiftStatus
  refine ⟨?_, ?_, ?_⟩ <;> intro v hv <;>
    obtain ⟨n, -, rfl⟩ := Option.map_eq_some'.mp hv <;>
    exact Int.ofNat_nonneg n

/-- C9 (witness): the nonnegativity theorem applied to the concrete
snapshot above. -/
theorem parseLiftStatus_nonneg_witness :
    (parseLiftStatus ("heading \"Lifts Open\"\n- text: \"7\"\n- paragraph: of 6")).openCount
      = some 7 ∧ (0 : ℤ) ≤ 7 :=
  ⟨by decide,
   (parseLiftStatus_nonneg ("heading \"Lifts Open\"\n- text: \"7\"\n- paragraph: of 6")).1
     7 (by decide)⟩

/-! ### Decision-engine lemmas -/

/-- With an exclusion map consistent with the day flags and a dry (or
absent) day 0, the engine does not mark today excluded. -/
theorem todayExcluded_eq_false (forecast : Option Forecast)
    (hc : consistentExcludeB forecast = true)
    (h0 : day0RainFlag forecast = false) :
    decideTodayExcluded forecast = false := by
  match forecast with
  | none => rfl
  | some f =>
    match hd : f.days with
    | [] => simp [decideTodayExcluded, forecastDays, hd]
    | d :: rest =>
      have hmem : d ∈ f.days := by rw [hd]; exact List.mem_cons_self d rest
      have hlk : lookupExclude f.excludeBefore3pmRain d.date = some d.rainBefore3pm := by
        have hall := List.all_eq_true.mp hc d hmem
        exact eq_of_beq hall
      have hflag : d.rainBefore3pm = false := by
        simpa [day0RainFlag, forecastDays, hd] using h0
      by_cases he : d.date = ("")
      · simp [decideTodayExcluded, forecastDays, hd, he]
      · simp [decideTodayExcluded, forecastDays, excludeMapOf, hd, he, hlk, hflag]

/-! ### C2 — today-good branch -/

/-- C2: when day 0 of the forecast is not flagged rainy (or the
forecast is absent), the exclusion map agrees with the day flags,
`liftOk` holds, and `snowOk` or `baseOk` holds, `decideNext` returns
confidence `good` with a label containing "Today". -/
theorem decideNext_today_good (month : ℕ) (lifts : Option LiftStatus)
    (snow : Option SnowReport) (forecast : Option Forecast) (bc : Option BCSnowpack)
    (hc : consistentExcludeB forecast = true)
    (h0 : day0RainFlag forecast = false)
    (hl : decideLiftOk lifts = true)
    (hs : decideSnowOk snow = true ∨ decideBaseOk snow = true) :
    (decideNext month lifts snow forecast bc).confidence = .good ∧
    strContains (decideNext month lifts snow forecast bc).label ("Today") = true := by
  have hex := todayExcluded_eq_false forecast hc h0
  have hg : todayGoodGuard lifts snow forecast = true := by
    unfold todayGoodGuard
    rcases hs with h | h <;> rw [hex, hl, h] <;> simp
  unfold decideNext
  rw [hg, if_pos rfl]
  refine ⟨rfl, ?_⟩
  show strContains ("Next good day: Today (no rain before 3pm) — go when you can")
    ("Today") = true
  decide

/-! ### C3 — next-day scan -/

/-- C3 (counterexample): the claim says the returned label references
the chosen day's ISO date ("2026-02-05"); but `decideNext` builds the
label from the day's `label` field (a locale-formatted string such as
"Thu, Feb 5"), so in the claim's own scenario — day 0 rainy, day 1 dry
with date 2026-02-05 — the confidence is `meh` yet the label does not
contain "2026-02-05" (the date appears in the reasons instead). -/
theorem decideNext_next_day_counterexample :
    day0RainFlag (some exForecastRainToday) = true ∧
    (decideNext 1 none none (some exForecastRainToday) none).confidence = .meh ∧
    strContains (decideNext 1 none none (some exForecastRainToday) none).label
      ("2026-02-05") = false ∧
    ("No forecast rain before 3pm on 2026-02-05.")
      ∈ (decideNext 1 none none (some exForecastRainToday) none).reasons := by
  decide

/-- C3 (amended): whenever the today-good branch does not fire,
`decideNext` scans the forecast days from index 1 onward for the first
day not excluded by the rain map and, if one exists, returns confidence
`meh`, label `"Next good day: "` followed by that day's label field,
and the base reasons extended by that day's extra lines; when the map
explicitly records `false` for that day's date, the reasons reference
the date via the "No forecast rain before 3pm on …" line. -/
theorem decideNext_next_day (month : ℕ) (lifts : Option LiftStatus)
    (snow : Option SnowReport) (forecast : Option Forecast) (bc : Option BCSnowpack)
    (nd : ForecastDay)
    (hg : todayGoodGuard lifts snow forecast = false)
    (hn : nextDayOf forecast = some nd) :
    decideNext month lifts snow forecast bc =
      { label := "Next good day: " ++ nd.label
        confidence := .meh
        reasons := decideBaseReasons lifts snow forecast ++ nextDayExtra forecast nd } ∧
    (lookupExclude (excludeMapOf forecast) nd.date = some false →
      ("No forecast rain before 3pm on " ++ nd.date ++ ".")
        ∈ (decideNext month lifts snow forecast bc).reasons) := by
  have h1 : decideNext month lifts snow forecast bc =
      { label := "Next good day: " ++ nd.label
        confidence := .meh
        reasons := decideBaseReasons lifts snow forecast ++ nextDayExtra forecast nd } := by
    unfold decideNext
    rw [hg, hn]
    simp
  refine ⟨h1, fun hlk => ?_⟩
  rw [h1]
  have h2 : nextDayExtra forecast nd =
      ["No forecast rain before 3pm on " ++ nd.date ++ "."] ++
      ((if 0 < nd.snowfallCm then
          ["Forecast snowfall: ~" ++ toString nd.snowfallCm ++ " cm (low confidence)."]
        else []) ++
       (if 0 < nd.rainMm then
          ["Forecast total rain: ~" ++ toString nd.rainMm ++ " mm (but after 3pm, per rule)."]
        else [])) := by
    unfold nextDayExtra
    rw [hlk]
    simp
  rw [h2]
  simp

/-- C3 (witness): the amended theorem at the spec's scenario — day 0
rainy, day 1 dry with date 2026-02-05. -/
theorem decideNext_next_day_witness :
    decideNext 1 none none (some exForecastRainToday) none =
      { label := "Next good day: " ++ exDay1Dry.label
        confidence := .meh
        reasons := decideBaseReasons none none (some exForecastRainToday) ++
          nextDayExtra (some exForecastRainToday) exDay1Dry } ∧
    (lookupExclude (excludeMapOf (some exForecastRainToday)) exDay1Dry.date = some false →
      ("No forecast rain before 3pm on " ++ exDay1Dry.date ++ ".")
        ∈ (decideNext 1 none none (some exForecastRainToday) none).reasons) :=
  decideNext_next_day 1 none none (some exForecastRainToday) none exDay1Dry
    (by decide) (by decide)

/-! ### C6 — seasonal fallback path -/

/-- C6 (amended): whenever the today-good branch does not fire and the
forecast is empty or every day from index 1 onward is flagged rainy
(with the exclusion map consistent with the flags), `decideNext`
returns the Seasonal Fallback's label and confidence, with the reasons
accumulated earlier preserved as a prefix, followed by the fallback's
reasons, followed by the explicit no-acceptable-day note. -/
theorem decideNext_fallback (month : ℕ) (lifts : Option LiftStatus)
    (snow : Option SnowReport) (forecast : Option Forecast) (bc : Option BCSnowpack)
    (hg : todayGoodGuard lifts snow forecast = false)
    (hc : consistentExcludeB forecast = true)
    (hall : ((forecastDays forecast).drop 1).all ForecastDay.rainBefore3pm = true) :
    decideNext month lifts snow forecast bc =
      { label := (seasonalGuess month bc).label
        confidence := (seasonalGuess month bc).confidence
        reasons := decideBaseReasons lifts snow forecast ++
          (seasonalGuess month bc).reasons ++ [noAcceptableNote] } := by
  have hn : nextDayOf forecast = none := by
    unfold nextDayOf
    rw [List.find?_eq_none]
    intro d hd
    have hmem : d ∈ forecastDays forecast := List.drop_subset 1 _ hd
    have hflag : d.rainBefore3pm = true := List.all_eq_true.mp hall d hd
    have hlk : lookupExclude (excludeMapOf forecast) d.date = some d.rainBefore3pm := by
      match forecast with
      | none => cases hmem
      | some f => exact eq_of_beq (List.all_eq_true.mp hc d hmem)
    simp [hlk, hflag]
  unfold decideNext
  rw [hg, hn]
  simp [List.append_assoc]

/-- C6 (witness): the amended theorem with every forecast day rainy
and no other favourable signal; the fallback's recommendation is
returned with the note appended. -/
theorem decideNext_fallback_witness :
    decideNext 6 none none (some exForecastAllRain) none =
      { label := (seasonalGuess 6 none).label
        confidence := (seasonalGuess 6 none).confidence
        reasons := decideBaseReasons none none (some exForecastAllRain) ++
          (seasonalGuess 6 none).reasons ++ [noAcceptableNote] } :=
  decideNext_fallback 6 none none (some exForecastAllRain) none
    (by decide) (by decide) (by decide)

/-! ### C10 — the fallback never says good -/

/-- C10: for every month and every snowpack input (absent or
error-shaped included), the Seasonal Fallback's confidence is `bad` or
`meh` — never `good` — and its reasons are non-empty; consequently, on
the fallback path (today-good branch not fired, no acceptable next
day), `decideNext` never returns confidence `good`. -/
theorem seasonalGuess_never_good (month : ℕ) (bc : Option BCSnowpack)
    (month2 : ℕ) (lifts : Option LiftStatus) (snow : Option SnowReport)
    (forecast : Option Forecast) (bc2 : Option BCSnowpack) :
    (seasonalGuess month bc).confidence ≠ .good ∧
    (seasonalGuess month bc).reasons ≠ [] ∧
    (todayGoodGuard lifts snow forecast = false → nextDayOf forecast = none →
      (decideNext month2 lifts snow forecast bc2).confidence ≠ .good) := by
  have key : ∀ (m : ℕ) (b : Option BCSnowpack),
      (seasonalGuess m b).confidence ≠ .good ∧ (seasonalGuess m b).reasons ≠ [] := by
    intro m b
    unfold seasonalGuess
    split_ifs <;> simp
  refine ⟨(key month bc).1, (key month bc).2, fun hg hn => ?_⟩
  unfold decideNext
  rw [hg, hn]
  simpa using (key month2 bc2).1

/-- C10 (witness): the theorem with no data at all in July. -/
theorem seasonalGuess_never_good_witness :
    (seasonalGuess 6 none).confidence ≠ .good ∧
    (seasonalGuess 6 none).reasons ≠ [] ∧
    (todayGoodGuard none none none = false → nextDayOf none = none →
      (decideNext 6 none none none none).confidence ≠ .good) :=
  seasonalGuess_never_good 6 none 6 none none none none

/-! ### Aggregator lemmas -/

/-- The fold step `addToDay` keeps the date. -/
theorem addToDay_date (s : HourSample) (d : DayAcc) : (addToDay s d).date = d.date := rfl

/-- Unfolding `findDay` over an empty bucket. -/
theorem findDay_nil (date : String) : findDay [] date = none := rfl

/-- Unfolding `findDay` over a cons. -/
theorem findDay_cons (d : DayAcc) (t : List DayAcc) (date : String) :
    findDay (d :: t) date = if d.date = date then some d else findDay t date := by
  by_cases h : d.date = date
  · rw [if_pos h]
    exact List.find?_cons_of_pos t (by simp [h])
  · rw [if_neg h]
    exact List.find?_cons_of_neg t (by simp [h])

/-- How `insertSample` changes lookups: the sample's own date gains the
folded-in sample (starting from a fresh accumulator when absent), every
other date is untouched. -/
theorem findDay_insertSample (s : HourSample) (acc : List DayAcc) (date : String) :
    findDay (insertSample s acc) date =
      if date = jsDate s.t then
        some (addToDay s ((findDay acc date).getD (freshDay date)))
      else findDay acc date := by
  induction acc with
  | nil =>
    by_cases h : date = jsDate s.t
    · subst h
      simp [insertSample, findDay_cons, findDay_nil, addToDay_date, freshDay]
    · rw [if_neg h]
      show findDay [addToDay s (freshDay (jsDate s.t))] date = findDay [] date
      rw [findDay_cons, addToDay_date]
      have hf : (freshDay (jsDate s.t)).date = jsDate s.t := rfl
      rw [hf, if_neg (fun he => h he.symm)]
  | cons d rest ih =>
    simp only [insertSample]
    by_cases hd : d.date = jsDate s.t
    · rw [if_pos hd, findDay_cons, addToDay_date]
      by_cases h : date = jsDate s.t
      · subst h
        rw [if_pos hd, if_pos rfl, findDay_cons, if_pos hd]
        rfl
      · have hdd : ¬ d.date = date := by rw [hd]; exact fun he => h he.symm
        rw [if_neg hdd, if_neg h, findDay_cons, if_neg hdd]
    · rw [if_neg hd, findDay_cons]
      by_cases h2 : d.date = date
      · have h : ¬ date = jsDate s.t := by rw [← h2]; exact hd
        rw [if_pos h2, if_neg h, findDay_cons, if_pos h2]
      · rw [if_neg h2, ih, findDay_cons, if_neg h2]

/-- A sample with a different local date never triggers the latch of a
day. -/
theorem triggersRain_ne (s : HourSample) (date : String) (h : ¬ jsDate s.t = date) :
    triggersRain s date = false := by
  unfold triggersRain
  have : (jsDate s.t == date) = false := by simp [h]
  simp [this]

/-- A sample triggers the latch of its own date exactly when it is a
before-3pm rain hour. -/
theorem triggersRain_self (s : HourSample) (date : String) (h : jsDate s.t = date) :
    triggersRain s date =
      (hourLt15 s.hour && isRainSample s.rainMm s.snowfallCm s.tempC) := by
  unfold triggersRain
  have : (jsDate s.t == date) = true := by simp [h]
  simp [this]

/-- The insertion step `insertSample` preserves the bucketing invariant. -/
theorem flagOk_insert (s : HourSample) (acc : List DayAcc) (processed : List HourSample)
    (h : FlagOk acc processed) : FlagOk (insertSample s acc) (processed ++ [s]) := by
  obtain ⟨h1, h2⟩ := h
  constructor
  · intro date d hfd
    rw [findDay_insertSample] at hfd
    by_cases hdt : date = jsDate s.t
    · rw [if_pos hdt] at hfd
      have hts : jsDate s.t = date := hdt.symm
      cases hfd0 : findDay acc date with
      | some d0 =>
        rw [hfd0] at hfd
        simp only [Option.getD_some, Option.some.injEq] at hfd
        subst hfd
        show (d0.rainBefore3pm ||
          (hourLt15 s.hour && isRainSample s.rainMm s.snowfallCm s.tempC)) = _
        rw [h1 date d0 hfd0, List.any_append]
        simp only [List.any_cons, List.any_nil, Bool.or_false]
        rw [triggersRain_self s date hts]
      | none =>
        rw [hfd0] at hfd
        simp only [Option.getD_none, Option.some.injEq] at hfd
        subst hfd
        show (false ||
          (hourLt15 s.hour && isRainSample s.rainMm s.snowfallCm s.tempC)) = _
        rw [List.any_append, h2 date hfd0]
        simp only [List.any_cons, List.any_nil, Bool.or_false]
        rw [triggersRain_self s date hts]
    · rw [if_neg hdt] at hfd
      rw [h1 date d hfd, List.any_append]
      simp only [List.any_cons, List.any_nil, Bool.or_false]
      rw [triggersRain_ne s date (fun he => hdt he.symm)]
      simp
  · intro date hfd
    rw [findDay_insertSample] at hfd
    by_cases hdt : date = jsDate s.t
    · rw [if_pos hdt] at hfd
      cases hfd
    · rw [if_neg hdt] at hfd
      rw [List.any_append, h2 date hfd]
      simp only [List.any_cons, List.any_nil, Bool.or_false]
      rw [triggersRain_ne s date (fun he => hdt he.symm)]
      rfl

/-- The fold over any sample list preserves the invariant. -/
theorem flagOk_fold (samples : List HourSample) :
    ∀ (acc : List DayAcc) (processed : List HourSample), FlagOk acc processed →
      FlagOk (samples.foldl (fun a s => insertSample s a) acc) (processed ++ samples) := by
  induction samples with
  | nil =>
    intro acc processed h
    simpa using h
  | cons s rest ih =>
    intro acc processed h
    have step := ih (insertSample s acc) (processed ++ [s]) (flagOk_insert s acc processed h)
    simpa [List.append_assoc] using step

/-- The invariant holds of the finished bucket against all samples. -/
theorem flagOk_bucket (samples : List HourSample) :
    FlagOk (bucketByDate samples) samples := by
  have base : FlagOk [] [] := by
    constructor
    · intro date d hfd
      cases hfd
    · intro date hfd
      rfl
  have := flagOk_fold samples [] [] base
  simpa [bucketByDate] using this

/-- The dates of the bucket after an insertion: unchanged when the
sample's date is already present, appended otherwise. -/
theorem dates_insertSample (s : HourSample) (acc : List DayAcc) :
    (insertSample s acc).map DayAcc.date =
      if jsDate s.t ∈ acc.map DayAcc.date then acc.map DayAcc.date
      else acc.map DayAcc.date ++ [jsDate s.t] := by
  induction acc with
  | nil =>
    simp [insertSample, addToDay_date, freshDay]
  | cons d rest ih =>
    by_cases hd : d.date = jsDate s.t
    · rw [insertSample, if_pos hd]
      have : jsDate s.t ∈ (d :: rest).map DayAcc.date := by
        simp [hd.symm]
      rw [if_pos this]
      simp [addToDay_date]
    · rw [insertSample, if_neg hd]
      by_cases hmem : jsDate s.t ∈ rest.map DayAcc.date
      · have : jsDate s.t ∈ (d :: rest).map DayAcc.date := by
          simp [hmem]
        rw [if_pos this]
        simp only [List.map_cons, List.cons.injEq]
        exact ⟨trivial, by rw [ih, if_pos hmem]⟩
      · have : ¬ jsDate s.t ∈ (d :: rest).map DayAcc.date := by
          simp [hmem]
          exact fun he => hd he.symm
        rw [if_neg this]
        simp only [List.map_cons, List.cons_append, List.cons.injEq]
        exact ⟨trivial, by rw [ih, if_neg hmem]⟩

/-- Insertion keeps the bucket dates duplicate-free. -/
theorem nodup_insertSample (s : HourSample) (acc : List DayAcc)
    (h : (acc.map DayAcc.date).Nodup) :
    ((insertSample s acc).map DayAcc.date).Nodup := by
  rw [dates_insertSample]
  split_ifs with hmem
  · exact h
  · simp [List.nodup_append, h, hmem]

/-- The finished bucket has duplicate-free dates. -/
theorem nodup_bucket (samples : List HourSample) :
    ((bucketByDate samples).map DayAcc.date).Nodup := by
  have gen : ∀ (ss : List HourSample) (acc : List DayAcc),
      (acc.map DayAcc.date).Nodup →
      (((ss.foldl (fun a s => insertSample s a) acc)).map DayAcc.date).Nodup := by
    intro ss
    induction ss with
    | nil => intro acc h; simpa using h
    | cons s rest ih => intro acc h; exact ih _ (nodup_insertSample s acc h)
  simpa [bucketByDate] using gen samples [] (by simp)

/-- Under duplicate-free dates, lookup by a member's date returns that
member. -/
theorem findDay_self (l : List DayAcc) (h : (l.map DayAcc.date).Nodup)
    (d : DayAcc) (hd : d ∈ l) : findDay l d.date = some d := by
  induction l with
  | nil => cases hd
  | cons a t ih =>
    rcases List.mem_cons.mp hd with rfl | hmem
    · simp [findDay, List.find?]
    · have hne : (a.date == d.date) = false := by
        have hdm : d.date ∈ t.map DayAcc.date := List.mem_map_of_mem DayAcc.date hmem
        have := (List.nodup_cons.mp h).1
        simp only [beq_eq_false_iff_ne, ne_eq]
        intro he
        rw [he] at this
        exact this hdm
      have := ih (List.nodup_cons.mp h).2 hmem
      simpa [findDay, List.find?, hne] using this

/-- Every emitted day comes from some accumulator via `mkForecastDay`. -/
theorem mem_labelDays (locale : String → String) (l : List DayAcc) (day : ForecastDay) :
    ∀ i, day ∈ labelDays locale i l → ∃ j d, d ∈ l ∧ day = mkForecastDay locale j d := by
  induction l with
  | nil =>
    intro i h
    cases h
  | cons d t ih =>
    intro i h
    rcases List.mem_cons.mp h with h | h
    · exact ⟨i, d, List.mem_cons_self d t, h⟩
    · obtain ⟨j, d2, hm, he⟩ := ih (i + 1) h
      exact ⟨j, d2, List.mem_cons_of_mem d hm, he⟩

/-- Labelling does not change the dates. -/
theorem labelDays_map_date (locale : String → String) (l : List DayAcc) :
    ∀ i, (labelDays locale i l).map ForecastDay.date = l.map DayAcc.date := by
  induction l with
  | nil => intro i; rfl
  | cons d t ih =>
    intro i
    show (mkForecastDay locale i d).date :: (labelDays locale (i + 1) t).map ForecastDay.date
      = d.date :: t.map DayAcc.date
    rw [ih (i + 1)]
    rfl

/-- The emitted days of a forecast have duplicate-free dates. -/
theorem fetchForecast_days_nodup (locale : String → String) (time : List String)
    (rain snowfall temp : List ℚ) :
    (((fetchForecast locale time rain snowfall temp).days).map ForecastDay.date).Nodup := by
  show ((labelDays locale 0
    ((bucketByDate (mkSamples time rain snowfall temp)).take 14)).map ForecastDay.date).Nodup
  rw [labelDays_map_date]
  exact ((List.take_sublist 14 _).map DayAcc.date).nodup (nodup_bucket _)

/-- First-match lookup in a map built from days with duplicate-free
dates recovers each day's own flag. -/
theorem lookupExclude_map_self (l : List ForecastDay)
    (h : (l.map ForecastDay.date).Nodup) (d : ForecastDay) (hd : d ∈ l) :
    lookupExclude (l.map fun x => (x.date, x.rainBefore3pm)) d.date
      = some d.rainBefore3pm := by
  induction l with
  | nil => cases hd
  | cons a t ih =>
    rcases List.mem_cons.mp hd with rfl | hmem
    · show ((((d.date, d.rainBefore3pm) :: t.map fun x => (x.date, x.rainBefore3pm)).find?
        (fun p => p.1 == d.date)).map Prod.snd) = some d.rainBefore3pm
      rw [List.find?_cons_of_pos _ (by simp)]
      rfl
    · have hne : ¬ ((a.date, a.rainBefore3pm).1 == d.date) = true := by
        have hdm : d.date ∈ t.map ForecastDay.date :=
          List.mem_map_of_mem ForecastDay.date hmem
        have hnm := (List.nodup_cons.mp h).1
        simp only [beq_iff_eq]
        intro he
        rw [he] at hnm
        exact hnm hdm
      have hfind := @List.find?_cons_of_neg _ (fun q => q.1 == d.date)
        (a.date, a.rainBefore3pm) (t.map fun x => (x.date, x.rainBefore3pm)) hne
      show ((((a.date, a.rainBefore3pm) :: t.map fun x => (x.date, x.rainBefore3pm)).find?
        (fun p => p.1 == d.date)).map Prod.snd) = some d.rainBefore3pm
      rw [hfind]
      exact ih (List.nodup_cons.mp h).2 hmem

/-- Forecasts built by the aggregator satisfy the consistency
hypothesis used by the decision-engine theorems: the exclusion map
derived from the days agrees with each day's own flag. -/
theorem fetchForecast_consistent (locale : String → String) (time : List String)
    (rain snowfall temp : List ℚ) :
    consistentExcludeB (some (fetchForecast locale time rain snowfall temp)) = true := by
  rw [show consistentExcludeB (some (fetchForecast locale time rain snowfall temp))
      = (fetchForecast locale time rain snowfall temp).days.all fun d =>
        lookupExclude ((fetchForecast locale time rain snowfall temp).days.map
          fun x => (x.date, x.rainBefore3pm)) d.date == some d.rainBefore3pm from rfl]
  rw [List.all_eq_true]
  intro d hd
  rw [lookupExclude_map_self _ (fetchForecast_days_nodup locale time rain snowfall temp) d hd]
  simp

/-! ### C4 — the rainBefore3pm flag -/

/-- C4: a day emitted by the forecast aggregator has
`rainBefore3pm = true` exactly when some hourly sample of that local
date has local hour < 15, positive rain, and is not reclassified as
snow by the cold-with-snowfall guard. -/
theorem rainBefore3pm_iff (locale : String → String) (time : List String)
    (rain snowfall temp : List ℚ) (day : ForecastDay)
    (hmem : day ∈ (fetchForecast locale time rain snowfall temp).days) :
    (day.rainBefore3pm = true ↔
      ∃ s ∈ mkSamples time rain snowfall temp, triggersRain s day.date = true) := by
  have hmem2 : day ∈ labelDays locale 0
      ((bucketByDate (mkSamples time rain snowfall temp)).take 14) := hmem
  obtain ⟨j, d, hd, rfl⟩ := mem_labelDays locale _ day 0 hmem2
  have hd2 : d ∈ bucketByDate (mkSamples time rain snowfall temp) :=
    List.take_subset 14 _ hd
  have hfd : findDay (bucketByDate (mkSamples time rain snowfall temp)) d.date = some d :=
    findDay_self _ (nodup_bucket _) d hd2
  have hflag := (flagOk_bucket (mkSamples time rain snowfall temp)).1 d.date d hfd
  have e1 : (mkForecastDay locale j d).rainBefore3pm = d.rainBefore3pm := rfl
  have e2 : (mkForecastDay locale j d).date = d.date := rfl
  rw [e1, e2, hflag]
  exact List.any_eq_true

/-! ### C5 — the stoke rule -/

/-- C5: every emitted forecast day's stoke rating is `bad` when
`rainBefore3pm` holds — regardless of snowfall — and otherwise `good`
when (snowfall > 0 and rain < 5 mm) or rain < 2 mm, else `meh` (rain
and snowfall being the day's rounded totals). -/
theorem stoke_rule (locale : String → String) (time : List String)
    (rain snowfall temp : List ℚ) (day : ForecastDay)
    (hmem : day ∈ (fetchForecast locale time rain snowfall temp).days) :
    day.stoke =
      (if day.rainBefore3pm then Confidence.bad
       else if 0 < day.snowfallCm ∧ day.rainMm < 5 then Confidence.good
       else if day.rainMm < 2 then Confidence.good
       else Confidence.meh) := by
  have hmem2 : day ∈ labelDays locale 0
      ((bucketByDate (mkSamples time rain snowfall temp)).take 14) := hmem
  obtain ⟨j, d, hd, rfl⟩ := mem_labelDays locale _ day 0 hmem2
  rfl

/-! ### Closed evaluations

The theorems below evaluate the embedded functions at concrete inputs
involving rational arithmetic; the Batteries `Rat` operations are made
unfoldable locally so `decide` can reduce them. -/

section RatEval

attribute [local semireducible] Rat.add Rat.sub Rat.mul Rat.inv

/-- C1 (counterexample): the claim says an open/total ratio of exactly
2/3 yields `liftOk = true`; but 2/3 < 0.67, so the engine computes
`false` for 2 of 3 lifts open. -/
theorem liftOk_two_thirds_counterexample :
    decideLiftOk (some { openCount := some 2, total := some 3, closed := none }) = false ∧
    ¬ ((67 : ℚ)/100 ≤ (2 : ℚ)/(3 : ℚ)) := by
  decide

/-- C1 (amended): with `open` and `total` both present and `total`
positive, `liftOk` is true iff open/total ≥ 0.67; at the boundary, a
ratio of exactly 2/3 yields `false` (2/3 < 0.67), as does 1/2; when
either field is absent, `liftOk` is false. -/
theorem liftOk_iff_ratio (o t : ℤ) (c co : Option ℤ) (h : 0 < t) :
    (decideLiftOk (some { openCount := some o, total := some t, closed := c }) = true
      ↔ (67 : ℚ)/100 ≤ (o : ℚ)/(t : ℚ))
    ∧ decideLiftOk (some { openCount := some 2, total := some 3, closed := none }) = false
    ∧ decideLiftOk (some { openCount := some 1, total := some 2, closed := none }) = false
    ∧ decideLiftOk none = false
    ∧ decideLiftOk (some { openCount := none, total := co, closed := c }) = false
    ∧ decideLiftOk (some { openCount := co, total := none, closed := c }) = false := by
  refine ⟨?_, by decide, by decide, rfl, ?_, ?_⟩
  · show jsRatioGe67 o t = true ↔ _
    unfold jsRatioGe67
    rw [if_neg (by omega : ¬ t = 0)]
    exact decide_eq_true_iff
  · cases co <;> rfl
  · cases co <;> rfl

/-- C1 (witness): the amended theorem applied at 2 of 3 lifts open. -/
theorem liftOk_iff_ratio_witness :
    (decideLiftOk (some { openCount := some 2, total := some 3, closed := none }) = true
      ↔ (67 : ℚ)/100 ≤ (2 : ℚ)/(3 : ℚ))
    ∧ decideLiftOk (some { openCount := some 2, total := some 3, closed := none }) = false
    ∧ decideLiftOk (some { openCount := some 1, total := some 2, closed := none }) = false
    ∧ decideLiftOk none = false
    ∧ decideLiftOk (some { openCount := none, total := none, closed := none }) = false
    ∧ decideLiftOk (some { openCount := none, total := none, closed := none }) = false :=
  liftOk_iff_ratio 2 3 none none (by decide)

/-- C2 (witness): the today-good theorem applied at the spec's
scenario — lifts 6/6, 15 cm of 7-day snow, 150 cm base, dry day 0. -/
theorem decideNext_today_good_witness :
    (decideNext 1 (some exLiftsFull) (some exSnowGood)
      (some exForecastDryToday) none).confidence = .good ∧
    strContains (decideNext 1 (some exLiftsFull) (some exSnowGood)
      (some exForecastDryToday) none).label ("Today") = true :=
  decideNext_today_good 1 (some exLiftsFull) (some exSnowGood)
    (some exForecastDryToday) none (by decide) (by decide) (by decide)
    (Or.inl (by decide))

/-- C6 (counterexample): the claim asserts the fallback fires whenever
every day from index 1 onward is rain-excluded; but the today-good
branch is checked first, so with dry day 0, full lifts and good snow
the engine returns `good` and never consults the fallback, even though
every later day is excluded. -/
theorem decideNext_fallback_counterexample :
    ((forecastDays (some exForecastDryToday)).drop 1).all ForecastDay.rainBefore3pm = true ∧
    consistentExcludeB (some exForecastDryToday) = true ∧
    (decideNext 1 (some exLiftsFull) (some exSnowGood)
      (some exForecastDryToday) none).confidence = .good ∧
    noAcceptableNote
      ∉ (decideNext 1 (some exLiftsFull) (some exSnowGood)
          (some exForecastDryToday) none).reasons := by
  decide

/-- C4 (witness): on the mixed-precipitation sample (temp 0.5, rain 2,
snowfall 3) the emitted day has `rainBefore3pm = false` — and indeed no
sample of that date triggers the latch. -/
theorem rainBefore3pm_iff_witness :
    (exAggregatedDay.rainBefore3pm = true ↔
      ∃ s ∈ mkSamples (["2026-02-05T08:00"]) ([2]) ([3]) ([1/2]),
        triggersRain s exAggregatedDay.date = true) :=
  rainBefore3pm_iff (fun d => d) (["2026-02-05T08:00"]) ([2]) ([3]) ([1/2])
    exAggregatedDay (by decide)

/-- C5 (witness): the stoke rule evaluated on the emitted day of the
2026-02-05 sample (no rain before 3pm, snowfall 3 cm, rain 2 mm —
stoke `good`). -/
theorem stoke_rule_witness :
    exAggregatedDay.stoke =
      (if exAggregatedDay.rainBefore3pm then Confidence.bad
       else if 0 < exAggregatedDay.snowfallCm ∧ exAggregatedDay.rainMm < 5 then
         Confidence.good
       else if exAggregatedDay.rainMm < 2 then Confidence.good
       else Confidence.meh) :=
  stoke_rule (fun d => d) (["2026-02-05T08:00"]) ([2]) ([3]) ([1/2])
    exAggregatedDay (by decide)

end RatEval

end CypressNext
